import Mathlib

/-!
Verification development for the schema-to-validator/filter compiler of
aiohttp_admin (module aiohttp_admin/backends/sa_utils.py, plus the resource
registration fragment of aiohttp_admin/routes.py).

The SQLAlchemy column-type universe is embedded as a closed inductive type
covering exactly the classes the module dispatches on.  Python isinstance
dispatch is reflected through predicates that honour the SQLAlchemy subclass
relations relevant here: Text and Enum are subclasses of String; DateTime and
Date are unrelated siblings.  Exact-class lookup (Python type(x) used as a
dict key) is reflected by constructor matching.
-/

namespace AioAdmin

/-- The closed universe of SQLAlchemy column types handled by sa_utils:
sa.Enum, sa.String(length), sa.Text, sa.Integer, sa.Float, sa.DateTime,
sa.Date, sa.Boolean, postgresql.JSON, postgresql.ARRAY(item). -/
inductive ColType where
  | enum (members : List String)
  | string (length : Option Nat)
  | text
  | integer
  | float
  | datetime
  | date
  | boolean
  | json
  | array (item : ColType)
deriving DecidableEq

/-- isinstance(x, sa.sql.sqltypes.Enum). -/
def ColType.isEnumInst : ColType → Bool
  | .enum _ => true
  | _ => false

/-- isinstance(x, sa.sql.sqltypes.String): in SQLAlchemy both Text and Enum
subclass String, so they satisfy this check as well. -/
def ColType.isStringInst : ColType → Bool
  | .enum _ => true
  | .string _ => true
  | .text => true
  | _ => false

/-- isinstance(x, sa.sql.sqltypes.Text). -/
def ColType.isTextInst : ColType → Bool
  | .text => true
  | _ => false

/-- isinstance(x, sa.sql.sqltypes.Integer). -/
def ColType.isIntegerInst : ColType → Bool
  | .integer => true
  | _ => false

/-- isinstance(x, sa.sql.sqltypes.Float). -/
def ColType.isFloatInst : ColType → Bool
  | .float => true
  | _ => false

/-- isinstance(x, sa.sql.sqltypes.DateTime). -/
def ColType.isDateTimeInst : ColType → Bool
  | .datetime => true
  | _ => false

/-- isinstance(x, sa.sql.sqltypes.Date). -/
def ColType.isDateInst : ColType → Bool
  | .date => true
  | _ => false

/-- isinstance(x, sa.sql.sqltypes.Boolean). -/
def ColType.isBooleanInst : ColType → Bool
  | .boolean => true
  | _ => false

/-- isinstance(x, postgresql.JSON). -/
def ColType.isJSONInst : ColType → Bool
  | .json => true
  | _ => false

/-- isinstance(x, postgresql.ARRAY). -/
def ColType.isArrayInst : ColType → Bool
  | .array _ => true
  | _ => false

/-- str(sa_type): the SQL rendering used in error messages, e.g.
str(sa.Integer()) is INTEGER. -/
def ColType.sqlName : ColType → String
  | .enum _ => "VARCHAR"
  | .string _ => "VARCHAR"
  | .text => "TEXT"
  | .date => "DATE"
  | .datetime => "DATETIME"
  | .integer => "INTEGER"
  | .float => "FLOAT"
  | .boolean => "BOOLEAN"
  | .json => "JSON"
  | .array item => item.sqlName ++ "[]"

/-- The universe of JSON-ish runtime values flowing through payloads and
filters.  Python floats are not modelled (no claim exercises them); numeric
values are represented by the int constructor. -/
inductive Value where
  | null
  | int (n : Int)
  | str (s : String)
  | bool (b : Bool)
  | list (items : List Value)
  | dict (pairs : List (String × Value))

/-- Structural equality on values (Python ==), by simultaneous recursion on
the nested lists. -/
def Value.beq : Value → Value → Bool
  | .null, .null => true
  | .int a, .int b => a == b
  | .str a, .str b => a == b
  | .bool a, .bool b => a == b
  | .list [], .list [] => true
  | .list (a :: as), .list (b :: bs) => Value.beq a b && Value.beq (.list as) (.list bs)
  | .dict [], .dict [] => true
  | .dict ((k, a) :: ps), .dict ((l, b) :: qs) =>
      k == l && Value.beq a b && Value.beq (.dict ps) (.dict qs)
  | _, _ => false
termination_by v _ => sizeOf v
decreasing_by all_goals simp_wf <;> omega

instance : BEq Value := ⟨Value.beq⟩

/-- One SQLAlchemy column as consumed by sa_utils: its name, type, nullable
flag and optional server_default.  The server default payload is abstracted
to a Value. -/
structure Column where
  name : String
  type : ColType
  nullable : Bool
  server_default : Option Value

/-- A table is its ordered column collection (table.c.items()). -/
abbrev Table := List Column

/-- Column names of a table (table.c.keys()). -/
def colNames (table : Table) : List String := table.map (·.name)

/-- A trafaret validation error.  DataError carries either a message or a
name-indexed collection of sub-errors (DataError.as_dict shape). -/
inductive DataErr where
  | msg (error : String)
  | fields (errors : List (String × DataErr))

/-- A trafaret is modelled by its check_and_return behaviour: a coercing
validation function on values. -/
def Trafaret := Value → Except DataErr Value

/-- t.Enum(members): the value must be one of the declared variants. -/
def tEnum (members : List String) : Trafaret := fun v =>
  match v with
  | .str s => if s ∈ members then .ok (.str s)
              else .error (.msg "value does not match any variant")
  | _ => .error (.msg "value does not match any variant")

/-- t.String(max_length): a non-blank string no longer than the declared
bound, when one is declared. -/
def tString (max_length : Option Nat) : Trafaret := fun v =>
  match v with
  | .str s =>
      if s.isEmpty then .error (.msg "blank value is not allowed")
      else
        match max_length with
        | some n => if s.length ≤ n then .ok (.str s)
                    else .error (.msg "String is longer than maximum length")
        | none => .ok (.str s)
  | _ => .error (.msg "value is not a string")

/-- Decimal digit value of a character. -/
def digitVal? (c : Char) : Option Nat :=
  if 48 ≤ c.toNat ∧ c.toNat ≤ 57 then some (c.toNat - 48) else none

/-- Accumulate decimal digits; any non-digit character fails. -/
def parseDigits : List Char → Nat → Option Nat
  | [], acc => some acc
  | c :: cs, acc =>
      match digitVal? c with
      | some d => parseDigits cs (acc * 10 + d)
      | none => none

/-- Python int(str) as trafaret invokes it, restricted to an optional minus
sign followed by decimal digits (whitespace and underscore tolerance of the
Python parser are not modelled; no claim depends on them). -/
def strToInt? (s : String) : Option Int :=
  match s.data with
  | [] => none
  | '-' :: [] => none
  | '-' :: cs => (parseDigits cs 0).map (fun n => -(n : Int))
  | cs => (parseDigits cs 0).map (fun n => (n : Int))

/-- t.Int: an integer, or a string convertible to one. -/
def tInt : Trafaret := fun v =>
  match v with
  | .int n => .ok (.int n)
  | .str s =>
      match strToInt? s with
      | some n => .ok (.int n)
      | none => .error (.msg "value cannot be converted to int")
  | _ => .error (.msg "value cannot be converted to int")

/-- t.Float, modelled on the int-valued universe (Python floats are not
modelled; no claim exercises float values). -/
def tFloat : Trafaret := fun v =>
  match v with
  | .int n => .ok (.int n)
  | _ => .error (.msg "value cannot be converted to float")

/-- rfc_3339.DateTime of trafaret.contrib: the external RFC-3339 grammar is
abstracted - strings are accepted, everything else is rejected; no claim
depends on which strings parse. -/
def tDateTime : Trafaret := fun v =>
  match v with
  | .str s => .ok (.str s)
  | _ => .error (.msg "value is not RFC3339 datetime")

/-- t.StrBool: a loose boolean parser over common encodings. -/
def tStrBool : Trafaret := fun v =>
  match v with
  | .bool b => .ok (.bool b)
  | .int n =>
      if n = 0 then .ok (.bool false)
      else if n = 1 then .ok (.bool true)
      else .error (.msg "value cannot be converted to Bool")
  | .str s =>
      if s ∈ ["true", "yes", "y", "on", "1"] then .ok (.bool true)
      else if s ∈ ["false", "no", "n", "off", "0"] then .ok (.bool false)
      else .error (.msg "value cannot be converted to Bool")
  | _ => .error (.msg "value cannot be converted to Bool")

/-- The JSON trafaret AnyDict | t.List(AnyDict): an arbitrary object, or a
list of objects. -/
def tJSON : Trafaret := fun v =>
  match v with
  | .dict pairs => .ok (.dict pairs)
  | .list items =>
      if items.all (fun x => match x with | .dict _ => true | _ => false)
      then .ok (.list items)
      else .error (.msg "value is not a dict or list of dicts")
  | _ => .error (.msg "value is not a dict or list of dicts")

/-- The element loop of t.List: each element through the item trafaret.  The
library collects per-index element errors; the first element error is
reported here, which no claim observes (the list handling the repository
itself performs in check_value is modelled exactly there). -/
def tListEach (item : Trafaret) : List Value → Except DataErr (List Value)
  | [] => .ok []
  | x :: xs =>
      match item x with
      | .error e => .error e
      | .ok x' =>
          match tListEach item xs with
          | .error e => .error e
          | .ok xs' => .ok (x' :: xs')

/-- t.List(item): a list whose elements all pass the item trafaret. -/
def tList (item : Trafaret) : Trafaret := fun v =>
  match v with
  | .list vs =>
      match tListEach item vs with
      | .ok vs' => .ok (.list vs')
      | .error e => .error e
  | _ => .error (.msg "value is not a list")

/-- The trafaret or-combinator (|): try the first, fall back to the second,
combining both errors on double failure as the library does. -/
def tOr (first second : Trafaret) : Trafaret := fun v =>
  match first v with
  | .ok v' => .ok v'
  | .error e1 =>
      match second v with
      | .ok v' => .ok v'
      | .error e2 => .error (.fields [("0", e1), ("1", e2)])

/-- t.Null: accepts exactly an explicit null. -/
def tNull : Trafaret := fun v =>
  match v with
  | .null => .ok .null
  | _ => .error (.msg "value should be None")

/-- build_trafaret(sa_type): the isinstance chain of sa_utils lines 19-59, one
arm per branch in source order.  Over the closed ColType universe the chain is
exhaustive, so the trailing NotImplementedError branch is unreachable and the
function is total.  The source checks Enum before String and Text before
String, which here is constructor matching (each ColType value records the
exact class). -/
def build_trafaret : ColType → Trafaret
  | .enum members => tEnum members
  | .text => tString none
  | .string length => tString length
  | .integer => tInt
  | .float => tFloat
  | .datetime => tDateTime
  | .date => tDateTime
  | .boolean => tStrBool
  | .json => tJSON
  | .array item => tList (build_trafaret item)

/-- A trafaret t.Key: a field name, optionally carrying a default applied
when the field is absent (the default is then passed through the field
trafaret, as the library does). -/
structure DictKey where
  name : String
  default : Option Value

/-- build_key(name, default): t.Key(name, default=default) when the column
has a server default, plain t.Key(name) otherwise. -/
def build_key (name : String) (default : Option Value) : DictKey :=
  match default with
  | some d => { name := name, default := some d }
  | none => { name := name, default := none }

/-- build_field(column): the column type trafaret, or-ed with t.Null when the
column is nullable. -/
def build_field (column : Column) : Trafaret :=
  let field := build_trafaret column.type
  if column.nullable then tOr field tNull else field

/-- The t.Dict(mapping).ignore_extra(names) object: the declared keys with
their field trafarets, plus the names silently dropped when they appear in
the payload without being declared. -/
structure TableValidator where
  keys : List (DictKey × Trafaret)
  ignoreExtra : List String

/-- validator_from_table(table, primary_key, skip_pk): one key per column,
skipping the column named primary_key when skip_pk is set, then
.ignore_extra(primary_key). -/
def validator_from_table (table : Table) (primary_key : String) (skip_pk : Bool) :
    TableValidator :=
  { keys := (table.filter
      (fun column => !(skip_pk && column.name == primary_key))).map
      (fun column => (build_key column.name column.server_default, build_field column)),
    ignoreExtra := [primary_key] }

/-- First value bound to a name in a payload (Python dict access on the
already-deduplicated JSON object). -/
def lookupField (name : String) (payload : List (String × Value)) : Option Value :=
  (payload.find? (fun p => p.1 == name)).map (·.2)

/-- Per-key results of a t.Dict check: every declared key is checked - value
when present, default when declared (the library passes the default through
the field trafaret), an is-required error otherwise. -/
def keyResults (tv : TableValidator) (payload : List (String × Value)) :
    List (String × Except DataErr Value) :=
  tv.keys.map (fun kt =>
    match lookupField kt.1.name payload with
    | some v => (kt.1.name, kt.2 v)
    | none =>
        match kt.1.default with
        | some d => (kt.1.name, kt.2 d)
        | none => (kt.1.name, Except.error (DataErr.msg "is required")))

/-- The failed entries among the per-key results. -/
def keyErrs (tv : TableValidator) (payload : List (String × Value)) :
    List (String × DataErr) :=
  (keyResults tv payload).filterMap (fun nr =>
    match nr.2 with
    | .error e => some (nr.1, e)
    | .ok _ => none)

/-- Errors for payload names that match no declared key: names listed in
ignore_extra are dropped silently, every other unknown name is a
not-allowed-key error (the t.Dict default). -/
def extraErrs (tv : TableValidator) (payload : List (String × Value)) :
    List (String × DataErr) :=
  payload.filterMap (fun p =>
    if (tv.keys.map (fun kt => kt.1.name)).contains p.1 then none
    else if tv.ignoreExtra.contains p.1 then none
    else some (p.1, DataErr.msg (p.1 ++ " is not allowed key")))

/-- t.Dict check_and_return on a payload: all per-key and extra-key errors
are collected into a single DataError; on success the checked key values are
returned. -/
def TableValidator.check (tv : TableValidator) (payload : List (String × Value)) :
    Except DataErr (List (String × Value)) :=
  let errs := keyErrs tv payload ++ extraErrs tv payload
  if errs.isEmpty then
    .ok ((keyResults tv payload).filterMap (fun nr =>
      match nr.2 with
      | .ok v => some (nr.1, v)
      | .error _ => none))
  else .error (.fields errs)

/-- The exceptions sa_utils raises: KeyError from table.c lookup, the bare
Exception of check_comparator, JsonValidaitonError (spelling as in the
repository) wrapping a trafaret DataError or a message, ValueError from op(),
TypeError from string concatenation on a non-string, and NotImplementedError
from the classifier chains. -/
inductive Err where
  | keyError (key : String)
  | exception (message : String)
  | jsonValidation (e : DataErr)
  | valueError (message : String)
  | typeError (message : String)
  | notImplemented (message : String)

/-- to_column(column_name, table): table.c[column_name]; a missing name
raises KeyError(column_name). -/
def to_column (column_name : String) (table : Table) : Except Err Column :=
  match table.find? (fun c => c.name == column_name) with
  | some c => .ok c
  | none => .error (.keyError column_name)

/-- One SQL predicate as produced by the comparators of op(): the operator
applied to a column and an already-validated value.  The like comparator
stores the pattern value + "%" it builds. -/
inductive Pred where
  | eq (column : String) (v : Value)
  | ne (column : String) (v : Value)
  | le (column : String) (v : Value)
  | lt (column : String) (v : Value)
  | ge (column : String) (v : Value)
  | gt (column : String) (v : Value)
  | inList (column : String) (v : Value)
  | like (column : String) (pattern : Value)

/-- op(operation, column) followed by comparator(column, value), fused: the
source first selects a comparator by operation name (raising ValueError for
an unknown name) and then applies it.  The like comparator computes
column.like(v + "%"); on a non-string v the Python concatenation raises
TypeError. -/
def applyOp (operation : String) (column : Column) (v : Value) : Except Err Pred :=
  if operation = "in" then .ok (.inList column.name v)
  else if operation = "like" then
    match v with
    | .str s => .ok (.like column.name (.str (s ++ "%")))
    | _ => .error (.typeError "can only concatenate str to str")
  else if operation = "eq" then .ok (.eq column.name v)
  else if operation = "ne" then .ok (.ne column.name v)
  else if operation = "le" then .ok (.le column.name v)
  else if operation = "lt" then .ok (.lt column.name v)
  else if operation = "ge" then .ok (.ge column.name v)
  else if operation = "gt" then .ok (.gt column.name v)
  else .error (.valueError ("Operation " ++ operation ++ " not supported"))

/-- comparator_map (sa_utils lines 122-128): a dict keyed by the exact column
type class (Python type(column.type)), so subclass relations do not apply and
classes absent from the dict - Enum, DateTime, Boolean, JSON, ARRAY - have no
entry.  Over the closed ColType universe exact-class lookup is constructor
matching. -/
def comparator_map : ColType → Option (List String)
  | .string _ => some ["eq", "ne", "like"]
  | .text => some ["eq", "ne", "like"]
  | .integer => some ["eq", "ne", "lt", "le", "gt", "ge", "in"]
  | .float => some ["eq", "ne", "lt", "le", "gt", "ge"]
  | .date => some ["eq", "ne", "lt", "le", "gt", "ge"]
  | _ => none

/-- check_comparator(column, comparator): raises Exception when the exact
column type class is not a comparator_map key, or when the comparator is not
in the entry for that class. -/
def check_comparator (column : Column) (comparator : String) : Except Err Unit :=
  match comparator_map column.type with
  | none => .error (.exception
      ("Filtering for column type " ++ column.type.sqlName ++ " not supported"))
  | some ops =>
      if comparator ∈ ops then .ok ()
      else .error (.exception
        ("Filtering for column type " ++ column.type.sqlName ++ " not supported"))

/-- The element loop of check_value on a list value: a Python list
comprehension, so the first failing element aborts the whole comprehension
with its DataError. -/
def check_each (trafaret : Trafaret) : List Value → Except DataErr (List Value)
  | [] => .ok []
  | v :: vs =>
      match trafaret v with
      | .error e => .error e
      | .ok v' =>
          match check_each trafaret vs with
          | .error e => .error e
          | .ok vs' => .ok (v' :: vs')

/-- check_value(column, value): validates the filter value through
build_trafaret(column.type) - note, not through build_field, so the nullable
or-with-Null branch is absent here - element-wise when the value is a list,
re-raising a DataError as JsonValidaitonError. -/
def check_value (column : Column) (value : Value) : Except Err Value :=
  let trafaret := build_trafaret column.type
  match value with
  | .list vs =>
      match check_each trafaret vs with
      | .ok vs' => .ok (.list vs')
      | .error e => .error (.jsonValidation e)
  | v =>
      match trafaret v with
      | .ok v' => .ok v'
      | .error e => .error (.jsonValidation e)

/-- The accumulating storage query: table.select() with the where-clauses
appended in application order (SQLAlchemy conjoins successive .where calls
with AND). -/
structure Query where
  table : Table
  whereClauses : List Pred

/-- table.select(): select-all, no predicate yet. -/
def Query.selectAll (table : Table) : Query := { table := table, whereClauses := [] }

/-- query.where(f): AND one more predicate onto the query. -/
def Query.whereAnd (q : Query) (f : Pred) : Query :=
  { q with whereClauses := q.whereClauses ++ [f] }

/-- One filter-request entry value: either a bare value (shorthand equality)
or a mapping from operator name to value. -/
inductive FilterVal where
  | value (v : Value)
  | ops (m : List (String × Value))

/-- The inner loop of create_filter over the operation map of one column: for
each (op_name, value) pair check the comparator, validate the value, build
the predicate and AND it onto the query. -/
def apply_operations (column : Column) :
    List (String × Value) → Query → Except Err Query
  | [], query => .ok query
  | (op_name, value) :: rest, query => do
      let _ ← check_comparator column op_name
      let value ← check_value column value
      let f ← applyOp op_name column value
      apply_operations column rest (query.whereAnd f)

/-- The outer loop of create_filter over filter entries in map order: resolve
the column, normalize a bare value to the eq operator map, then run the inner
loop. -/
def create_filter_aux (table : Table) :
    List (String × FilterVal) → Query → Except Err Query
  | [], query => .ok query
  | (column_name, operation) :: rest, query => do
      let column ← to_column column_name table
      let opMap := match operation with
        | .value value => [("eq", value)]
        | .ops m => m
      let query ← apply_operations column opMap query
      create_filter_aux table rest query

/-- create_filter(table, filter): starts from table.select() and folds every
filter entry onto it. -/
def create_filter (table : Table) (filter : List (String × FilterVal)) :
    Except Err Query :=
  create_filter_aux table filter (Query.selectAll table)

/-- Modelled from the spec: the external untrusted-input validator
_validate_query from aiohttp_admin/utils.py is not under src/; per spec
section 4.5 it parses the raw request into recognized keys including an
optional sort field (_sortField) and a filter map (_filters), and is
otherwise out of scope.  We therefore take its already-parsed result as the
input shape. -/
structure ParsedQuery where
  sortField : Option String
  filters : List (String × FilterVal)

/-- The column names an inbound list-query references: the filter keys, then
the sort field when present (validate_query builds the list in that order). -/
def referenced_columns (q : ParsedQuery) : List String :=
  q.filters.map (·.1) ++ q.sortField.toList

/-- set(columns).difference(possible_columns) of validate_query: the
referenced names, deduplicated, that are absent from the table.  Python set
iteration order is unspecified; first-occurrence order is used here, and no
claim depends on the order. -/
def not_valid_columns (q : ParsedQuery) (table : Table) : List String :=
  (referenced_columns q).dedup.filter (fun c => !(decide (c ∈ colNames table)))

/-- The message validate_query formats from the offending column names. -/
def unknownColumnsMessage (names : List String) : String :=
  "Columns: " ++ String.intercalate ", " names ++ " do not present in resource"

/-- validate_query(query, table): after the external parse (see ParsedQuery),
collects the referenced column names, and raises a single JsonValidaitonError
listing every name absent from the table; otherwise returns the parsed query
unchanged. -/
def validate_query (q : ParsedQuery) (table : Table) : Except Err ParsedQuery :=
  let not_valid := not_valid_columns q table
  if not_valid.isEmpty then .ok q
  else .error (.jsonValidation (.msg (unknownColumnsMessage not_valid)))

/-- build_type_mapper(sa_type) (sa_utils lines 196-235): the isinstance
chain in source order.  Unlike build_trafaret, the String check precedes the
Text check here, and since Text subclasses String the Text branch is written
with the predicates to keep that order observable.  The trailing branch is
the NotImplementedError raise, unreachable over the closed universe. -/
def build_type_mapper (sa_type : ColType) : Except Err String :=
  if sa_type.isEnumInst then .ok "string"
  else if sa_type.isStringInst then .ok "string"
  else if sa_type.isTextInst then .ok "text"
  else if sa_type.isIntegerInst then .ok "string"
  else if sa_type.isFloatInst then .ok "float"
  else if sa_type.isDateTimeInst then .ok "datetime"
  else if sa_type.isDateInst then .ok "date"
  else if sa_type.isBooleanInst then .ok "boolean"
  else if sa_type.isJSONInst then .ok "json"
  else if sa_type.isArrayInst then .ok "embedded_list"
  else .error (.notImplemented
    ("Validator for type " ++ sa_type.sqlName ++ " not implemented"))

/-- The model metadata setup_resources (routes.py) reads: the field names of
the resource model. -/
structure ModelInfo where
  fields : List String

/-- The display-handling fragment of setup_resources (routes.py lines 20-26):
omit_fields is m.fields.keys() - r["display"] when the resource configuration
has a "display" entry (the KeyError branch yields the empty tuple otherwise),
and a ValueError is raised when omit_fields contains a name outside
m.fields. -/
def setup_resource_omit (m : ModelInfo) (display : Option (List String)) :
    Except String (List String) :=
  match display with
  | none => .ok []
  | some d =>
      let omit_fields := m.fields.filter (fun f => !(decide (f ∈ d)))
      if omit_fields.all (fun f => decide (f ∈ m.fields)) then .ok omit_fields
      else .error "list_omit includes non-existent field"

/-! Semantic reading of compiled queries, used to state query equivalence:
a row assigns a value to each column name, a query is satisfied when every
accumulated where-clause evaluates to true (SQLAlchemy conjoins successive
where calls with AND).  Ordering comparisons are read on integer values. -/

/-- Integer reading of a value, for the ordering comparators. -/
def Value.asInt? : Value → Option Int
  | .int n => some n
  | _ => none

/-- SQL LIKE on the patterns the like comparator builds (a literal with a
trailing percent wildcard). -/
def likeMatches (s pat : String) : Bool :=
  if pat.endsWith "%" then s.startsWith (pat.dropRight 1) else s == pat

/-- Truth of one predicate on a row. -/
def Pred.eval (row : String → Value) : Pred → Bool
  | .eq c v => Value.beq (row c) v
  | .ne c v => !(Value.beq (row c) v)
  | .le c v =>
      match (row c).asInt?, v.asInt? with
      | some a, some b => a ≤ b
      | _, _ => false
  | .lt c v =>
      match (row c).asInt?, v.asInt? with
      | some a, some b => a < b
      | _, _ => false
  | .ge c v =>
      match (row c).asInt?, v.asInt? with
      | some a, some b => b ≤ a
      | _, _ => false
  | .gt c v =>
      match (row c).asInt?, v.asInt? with
      | some a, some b => b < a
      | _, _ => false
  | .inList c v =>
      match v with
      | .list vs => vs.any (fun x => Value.beq (row c) x)
      | _ => false
  | .like c p =>
      match row c, p with
      | .str s, .str pat => likeMatches s pat
      | _, _ => false

/-- A row satisfies a query when every accumulated predicate holds. -/
def Query.satisfies (q : Query) (row : String → Value) : Bool :=
  q.whereClauses.all (Pred.eval row)

/-- Number of (column, operator, value) entries a filter request denotes
after shorthand normalization. -/
def totalEntries (filter : List (String × FilterVal)) : Nat :=
  (filter.map (fun e =>
    match e.2 with
    | .value _ => 1
    | .ops m => m.length)).sum

/-- The capability table of the amended claim C1: the specified table with
the datetime row corrected to the empty set (DateTime is not a
comparator_map key, so datetime columns accept no operator). -/
def amended_capability : ColType → List String
  | .string _ => ["eq", "ne", "like"]
  | .text => ["eq", "ne", "like"]
  | .integer => ["eq", "ne", "lt", "le", "gt", "ge", "in"]
  | .float => ["eq", "ne", "lt", "le", "gt", "ge"]
  | .date => ["eq", "ne", "lt", "le", "gt", "ge"]
  | .datetime => []
  | .enum _ => []
  | .boolean => []
  | .json => []
  | .array _ => []

/-! Concrete fixtures. -/

/-- An integer column named age. -/
def ageColumn : Column := { name := "age", type := .integer, nullable := false, server_default := none }

/-- A single-column table with the integer column age. -/
def ageTable : Table := [ageColumn]

/-- The filter request of the C4 example. -/
def ageFilter : List (String × FilterVal) := [("age", .ops [("gt", .int 18), ("lt", .int 65)])]

/-- The query the C4 example compiles to. -/
def ageQuery : Query := { table := ageTable, whereClauses := [.gt "age" (.int 18), .lt "age" (.int 65)] }

/-- A datetime column. -/
def savedAtColumn : Column := { name := "saved_at", type := .datetime, nullable := false, server_default := none }

/-- A non-nullable integer primary-key column without a server default. -/
def idColumn : Column := { name := "id", type := .integer, nullable := false, server_default := none }

/-- A nullable string column. -/
def msgColumn : Column := { name := "msg", type := .string none, nullable := true, server_default := none }

/-- The table of the conftest Dummy2 model: integer primary key id plus
nullable string msg. -/
def dummyTable : Table := [idColumn, msgColumn]

/-- A nullable integer column. -/
def optColumn : Column := { name := "opt_num", type := .integer, nullable := true, server_default := none }

/-- A single-column table with the nullable integer column. -/
def optTable : Table := [optColumn]

/-- The list-query of the C9 example: sort by the absent column ghost,
filter on the valid column age. -/
def ghostQuery : ParsedQuery := { sortField := some "ghost", filters := [("age", .value (.int 5))] }

/-! Claim theorems. -/

/-- C1 (counterexample): the claim asserts datetime columns accept exactly
the operators eq, ne, lt, le, gt, ge; on a datetime column even the operator
check for eq fails, because comparator_map is keyed by exact type class and
has no DateTime key. -/
theorem claim1_counterexample :
    check_comparator savedAtColumn "eq"
        = .error (.exception "Filtering for column type DATETIME not supported")
    ∧ check_comparator savedAtColumn "eq" ≠ .ok () :=
  ⟨rfl, fun h => nomatch h⟩

/-- C1 (amended): for every column, the operator check succeeds exactly on
the operators of the fixed capability table with the datetime row corrected
to the empty set: string and text columns accept exactly eq, ne, like;
integer columns exactly eq, ne, lt, le, gt, ge, in; float columns exactly
eq, ne, lt, le, gt, ge; date columns exactly eq, ne, lt, le, gt, ge;
datetime columns accept no operator at all; and boolean, enum, JSON and
array columns accept no operator at all. -/
theorem claim1_operator_capability :
    ∀ (column : Column) (comparator : String),
      check_comparator column comparator = .ok ()
        ↔ comparator ∈ amended_capability column.type := by
  intro column comparator
  cases h : column.type <;>
    simp [check_comparator, comparator_map, amended_capability, h] <;> tauto

/-- C3 (evaluation at the failing input): a text column is classified as
string, not text, because build_type_mapper checks isinstance String before
isinstance Text and Text subclasses String, leaving its text branch
unreachable; build_trafaret in the same module documents and applies the
opposite, required order. -/
theorem claim3_text_classified_as_string :
    build_type_mapper .text = .ok "string" := rfl

/-- C5: compiling the shorthand filter (column to bare value) produces
exactly the same result - the same query, or the same failure - as compiling
the explicit eq form, for every table, column name and value. -/
theorem claim5_shorthand_equals_eq :
    ∀ (table : Table) (c : String) (v : Value),
      create_filter table [(c, .value v)]
        = create_filter table [(c, .ops [("eq", v)])] := by
  intro table c v
  rfl

/-- Inversion of a successful Except bind: the first stage succeeded and the
continuation succeeded on its result. -/
theorem exceptBind_ok {ε α β : Type} {x : Except ε α} {f : α → Except ε β} {b : β}
    (h : (x >>= f) = .ok b) : ∃ a, x = .ok a ∧ f a = .ok b := by
  cases x with
  | error e => simp [Bind.bind, Except.bind] at h
  | ok a => exact ⟨a, rfl, by simpa [Bind.bind, Except.bind] using h⟩

/-- The inner filter loop preserves the table and appends exactly one
where-clause per (operator, value) pair. -/
theorem apply_operations_ok_shape (column : Column) :
    ∀ (ops : List (String × Value)) (q q' : Query),
      apply_operations column ops q = .ok q' →
      q'.table = q.table ∧ q'.whereClauses.length = q.whereClauses.length + ops.length := by
  intro ops
  induction ops with
  | nil =>
      intro q q' h
      simp only [apply_operations] at h
      injection h with h
      subst h
      simp
  | cons hd tl ih =>
      intro q q' h
      obtain ⟨op_name, value⟩ := hd
      simp only [apply_operations] at h
      obtain ⟨u, hu, h⟩ := exceptBind_ok h
      obtain ⟨value', hv, h⟩ := exceptBind_ok h
      obtain ⟨f, hf, h⟩ := exceptBind_ok h
      obtain ⟨ht, hl⟩ := ih _ _ h
      refine ⟨ht, ?_⟩
      rw [hl]
      simp [Query.whereAnd]
      omega

/-- The outer filter loop preserves the table and appends exactly one
where-clause per normalized filter entry. -/
theorem create_filter_aux_ok_shape (table : Table) :
    ∀ (filter : List (String × FilterVal)) (q q' : Query),
      create_filter_aux table filter q = .ok q' →
      q'.table = q.table ∧
        q'.whereClauses.length = q.whereClauses.length + totalEntries filter := by
  intro filter
  induction filter with
  | nil =>
      intro q q' h
      simp only [create_filter_aux] at h
      injection h with h
      subst h
      simp [totalEntries]
  | cons hd tl ih =>
      intro q q' h
      obtain ⟨column_name, operation⟩ := hd
      simp only [create_filter_aux] at h
      obtain ⟨column, hcol, h⟩ := exceptBind_ok h
      obtain ⟨q1, hops, h⟩ := exceptBind_ok h
      obtain ⟨ht1, hl1⟩ := apply_operations_ok_shape column _ q q1 hops
      obtain ⟨ht2, hl2⟩ := ih _ _ h
      refine ⟨ht2.trans ht1, ?_⟩
      rw [hl2, hl1]
      cases operation <;> simp [totalEntries] <;> omega

/-- C4: every successfully compiled filter starts from select-all on its
table and carries exactly one where-clause per (column, operator, value)
entry, appended in filter-map iteration order; the example filter on the
integer column age with gt 18 and lt 65 compiles to exactly those two
predicates in order, and a row satisfies the compiled query exactly when its
age value is an integer strictly between 18 and 65 (age > 18 AND age < 65). -/
theorem claim4_filter_accumulation :
    (∀ (table : Table) (filter : List (String × FilterVal)) (q : Query),
        create_filter table filter = .ok q →
        q.table = table ∧ q.whereClauses.length = totalEntries filter)
    ∧ create_filter ageTable ageFilter = .ok ageQuery
    ∧ (∀ row : String → Value,
        ageQuery.satisfies row = true
          ↔ ∃ m : Int, row "age" = .int m ∧ 18 < m ∧ m < 65) := by
  refine ⟨?_, rfl, ?_⟩
  · intro table filter q h
    have := create_filter_aux_ok_shape table filter (Query.selectAll table) q h
    simpa [Query.selectAll] using this
  · intro row
    simp only [Query.satisfies, ageQuery, List.all_cons, List.all_nil,
      Bool.and_true, Bool.and_eq_true, Pred.eval]
    cases hr : row "age" <;> simp [Value.asInt?, hr]

/-- C4 (witness): the general conjunct instantiated at the example filter. -/
theorem claim4_witness :
    ageQuery.table = ageTable ∧ ageQuery.whereClauses.length = totalEntries ageFilter :=
  claim4_filter_accumulation.1 ageTable ageFilter ageQuery rfl

/-- Every trafaret produced by build_trafaret rejects an explicit null: no
base type check accepts the null value. -/
theorem build_trafaret_rejects_null :
    ∀ t : ColType, ∃ e, build_trafaret t .null = .error e := by
  intro t
  cases t <;> exact ⟨_, rfl⟩

/-- C7 (counterexample): the claim asserts a null filter value on a nullable
column validates successfully during filter compilation; on the nullable
integer column opt_num the shorthand filter with a null value fails, because
check_value validates through build_trafaret alone, without the or-with-Null
branch that build_field adds. -/
theorem claim7_counterexample :
    optColumn.nullable = true
    ∧ create_filter optTable [("opt_num", .value .null)]
        = .error (.jsonValidation (.msg "value cannot be converted to int")) :=
  ⟨rfl, rfl⟩

/-- C7 (amended): the payload-side Field Validator of a nullable column
(build_field) accepts an explicit null in addition to its base-type rule,
but the filter-side value check (check_value) uses the base trafaret without
the null alternative, so a null filter value always fails validation during
filter compilation. -/
theorem claim7_nullable_validator :
    ∀ column : Column,
      column.nullable = true →
      build_field column .null = .ok .null
        ∧ ∃ e, check_value column .null = .error (.jsonValidation e) := by
  intro column hn
  obtain ⟨e, he⟩ := build_trafaret_rejects_null column.type
  constructor
  · simp only [build_field, hn, if_true]
    simp [tOr, tNull, he]
  · exact ⟨e, by simp [check_value, he]⟩

/-- C7 (witness): the amended claim at the nullable integer column. -/
theorem claim7_witness :
    build_field optColumn .null = .ok .null
      ∧ ∃ e, check_value optColumn .null = .error (.jsonValidation e) :=
  claim7_nullable_validator optColumn rfl

/-- C8 (counterexample): the claim asserts all value-validation failures in
one compilation are reported together; filtering the integer column age with
the in operator over the list of the two invalid strings x and y reports an
error identical to the one produced by the single invalid string x alone -
the second failure leaves no trace, so failures are not collected. -/
theorem claim8_counterexample :
    create_filter ageTable [("age", .ops [("in", .list [.str "x", .str "y"])])]
        = .error (.jsonValidation (.msg "value cannot be converted to int"))
    ∧ create_filter ageTable [("age", .ops [("in", .list [.str "x"])])]
        = .error (.jsonValidation (.msg "value cannot be converted to int")) :=
  ⟨rfl, rfl⟩

/-- C8 (amended): value validation during filter compilation short-circuits:
when the first element of a list value fails the base type check, check_value
raises a ValidationError carrying exactly that first failure, whatever
failures the remaining elements would add. -/
theorem claim8_first_failure_only :
    ∀ (column : Column) (v : Value) (vs : List Value) (e : DataErr),
      build_trafaret column.type v = .error e →
      check_value column (.list (v :: vs)) = .error (.jsonValidation e) := by
  intro column v vs e h
  simp [check_value, check_each, h]

/-- C8 (witness): the amended claim at the in-list of two invalid strings on
the integer column age. -/
theorem claim8_witness :
    check_value ageColumn (.list [.str "x", .str "y"])
        = .error (.jsonValidation (.msg "value cannot be converted to int")) :=
  claim8_first_failure_only ageColumn (.str "x") [.str "y"]
    (.msg "value cannot be converted to int") rfl

/-- A built key keeps the name it was built from. -/
theorem build_key_name (n : String) (d : Option Value) : (build_key n d).name = n := by
  cases d <;> rfl

/-- C2 (counterexample): with skip_primary_key=False the primary key is a
declared required field, not an ignorable extra one: on the table with
integer primary key id and nullable string msg, the otherwise-conforming
payload containing only msg fails validation with an is-required error for
id, while the same payload with id included validates. -/
theorem claim2_counterexample :
    (validator_from_table dummyTable "id" false).check [("id", .int 1), ("msg", .str "hi")]
        = .ok [("id", .int 1), ("msg", .str "hi")]
    ∧ (validator_from_table dummyTable "id" false).check [("msg", .str "hi")]
        = .error (.fields [("id", .msg "is required")]) :=
  ⟨rfl, rfl⟩

/-- C2 (amended): the validator compiled with skip_primary_key=True contains
no field for the primary key and lists it as ignorable extra input, so
payloads including or omitting it both validate; with skip_primary_key=False
the primary key is an ordinary declared field: an otherwise-conforming
payload including a valid primary-key value validates, but a payload
omitting the primary key fails whenever the primary-key column has no server
default (the ignore_extra entry is inert for a declared key). -/
theorem claim2_primary_key_handling :
    (∀ (table : Table) (pk : String) (kt : DictKey × Trafaret),
        kt ∈ (validator_from_table table pk true).keys → kt.1.name ≠ pk)
    ∧ (∀ (table : Table) (pk : String),
        pk ∈ (validator_from_table table pk true).ignoreExtra)
    ∧ (validator_from_table dummyTable "id" false).check [("id", .int 1), ("msg", .str "hi")]
        = .ok [("id", .int 1), ("msg", .str "hi")]
    ∧ (∀ (table : Table) (pk : String) (payload : List (String × Value)) (col : Column),
        col ∈ table → col.name = pk → col.server_default = none →
        lookupField pk payload = none →
        ∃ e, (validator_from_table table pk false).check payload = .error e) := by
  refine ⟨?_, ?_, rfl, ?_⟩
  · intro table pk kt hmem
    simp only [validator_from_table, List.mem_map, List.mem_filter] at hmem
    obtain ⟨col, ⟨hcolmem, hpred⟩, hkt⟩ := hmem
    simp at hpred
    rw [← hkt]
    simpa [build_key_name] using hpred
  · intro table pk
    simp [validator_from_table]
  · intro table pk payload col hmem hname hdef hlook
    have hkey : (build_key pk none, build_field col)
        ∈ (validator_from_table table pk false).keys := by
      simp only [validator_from_table, Bool.false_and, Bool.not_false, List.filter_true]
      refine List.mem_map.mpr ⟨col, hmem, ?_⟩
      rw [hname, hdef]
    have hres : (pk, Except.error (DataErr.msg "is required"))
        ∈ keyResults (validator_from_table table pk false) payload := by
      refine List.mem_map.mpr ⟨(build_key pk none, build_field col), hkey, ?_⟩
      simp [build_key, hlook]
    have herr : (pk, DataErr.msg "is required")
        ∈ keyErrs (validator_from_table table pk false) payload := by
      refine List.mem_filterMap.mpr ⟨(pk, Except.error (DataErr.msg "is required")), hres, rfl⟩
    have hne : keyErrs (validator_from_table table pk false) payload
          ++ extraErrs (validator_from_table table pk false) payload ≠ [] :=
      List.ne_nil_of_mem (List.mem_append_left _ herr)
    refine ⟨.fields (keyErrs (validator_from_table table pk false) payload
          ++ extraErrs (validator_from_table table pk false) payload), ?_⟩
    simp only [TableValidator.check]
    rw [if_neg]
    simpa using hne

/-- C2 (witness): the amended claim instantiated on the dummy table - the
skip variant holds its only key, msg, which differs from id, and the
no-skip variant rejects the payload omitting id. -/
theorem claim2_witness :
    (build_key "msg" none, build_field msgColumn).1.name ≠ "id"
    ∧ ∃ e, (validator_from_table dummyTable "id" false).check [("msg", .str "hi")]
        = .error e :=
  ⟨claim2_primary_key_handling.1 dummyTable "id" (build_key "msg" none, build_field msgColumn)
      (List.Mem.head _),
   claim2_primary_key_handling.2.2.2 dummyTable "id" [("msg", .str "hi")] idColumn
      (List.Mem.head _) rfl rfl rfl⟩

/-- A successful column resolution means the name is a column of the table. -/
theorem to_column_ok_mem {c : String} {table : Table} {col : Column}
    (h : to_column c table = .ok col) : c ∈ colNames table := by
  unfold to_column at h
  cases hf : table.find? (fun x => x.name == c) <;> rw [hf] at h
  · exact absurd h (by simp)
  · have hpc := List.find?_some hf
    have hmem := List.mem_of_find?_eq_some hf
    simp at hpc
    exact List.mem_map.mpr ⟨_, hmem, hpc⟩

/-- Resolving a name absent from the table raises KeyError on that name. -/
theorem to_column_absent {c : String} {table : Table} (h : c ∉ colNames table) :
    to_column c table = .error (.keyError c) := by
  have hf : table.find? (fun x => x.name == c) = none := by
    rw [List.find?_eq_none]
    intro x hx
    simp
    intro hxc
    exact h (List.mem_map.mpr ⟨x, hx, hxc⟩)
  simp [to_column, hf]

/-- A filter mentioning a column absent from the table never compiles: the
outer loop either fails on an earlier entry or reaches the absent column and
fails there. -/
theorem create_filter_aux_missing_column (table : Table) :
    ∀ (f : List (String × FilterVal)) (q : Query),
      (∃ c, c ∈ f.map (·.1) ∧ c ∉ colNames table) →
      ∃ e, create_filter_aux table f q = .error e := by
  intro f
  induction f with
  | nil =>
      intro q hex
      obtain ⟨c, hc, _⟩ := hex
      simp at hc
  | cons hd tl ih =>
      intro q hex
      obtain ⟨c, hc, hnotin⟩ := hex
      obtain ⟨cn, fv⟩ := hd
      simp only [List.map_cons, List.mem_cons] at hc
      cases herr : to_column cn table with
      | error e =>
          exact ⟨e, by simp [create_filter_aux, herr, Bind.bind, Except.bind]⟩
      | ok col =>
          cases hops : apply_operations col
              (match fv with | .value v => [("eq", v)] | .ops m => m) q with
          | error e =>
              exact ⟨e, by simp [create_filter_aux, herr, hops, Bind.bind, Except.bind]⟩
          | ok q1 =>
              have hcrest : c ∈ tl.map (·.1) := by
                cases hc with
                | inl hceq => exact absurd (hceq ▸ to_column_ok_mem herr) hnotin
                | inr h' => exact h'
              obtain ⟨e, he⟩ := ih q1 ⟨c, hcrest, hnotin⟩
              exact ⟨e, by simp [create_filter_aux, herr, hops, Bind.bind, Except.bind, he]⟩

/-- C6 (counterexample): the claim asserts every filter referencing an
absent column fails with the unknown-column error naming it; the filter
whose first entry applies like to the integer column age and whose second
entry references the absent ghost_column fails with the generic Exception of
check_comparator instead, which is not a KeyError naming any column. -/
theorem claim6_counterexample :
    create_filter ageTable
        [("age", .ops [("like", .str "x")]), ("ghost_column", .value (.int 1))]
        = .error (.exception "Filtering for column type INTEGER not supported")
    ∧ ∀ s, Err.exception "Filtering for column type INTEGER not supported"
        ≠ Err.keyError s :=
  ⟨rfl, fun _ h => nomatch h⟩

/-- C6 (amended): a filter request referencing a column absent from the
table always fails to compile; and when the entry of the absent column is reached
without an earlier entry failing first - in particular when it is the first
entry - the failure is the KeyError of the column lookup, naming the
offending column. -/
theorem claim6_unknown_column :
    (∀ (table : Table) (filter : List (String × FilterVal)),
        (∃ c, c ∈ filter.map (·.1) ∧ c ∉ colNames table) →
        ∃ e, create_filter table filter = .error e)
    ∧ (∀ (table : Table) (c : String) (fv : FilterVal)
        (rest : List (String × FilterVal)),
        c ∉ colNames table →
        create_filter table ((c, fv) :: rest) = .error (.keyError c)) := by
  constructor
  · intro table filter hex
    exact create_filter_aux_missing_column table filter (Query.selectAll table) hex
  · intro table c fv rest hc
    simp [create_filter, create_filter_aux, to_column_absent hc, Bind.bind, Except.bind]

/-- C6 (witness): the example of the claim - compiling the single-entry
filter on the absent ghost_column fails with KeyError naming ghost_column. -/
theorem claim6_witness :
    create_filter ageTable [("ghost_column", .value (.int 1))]
        = .error (.keyError "ghost_column") :=
  claim6_unknown_column.2 ageTable "ghost_column" (.value (.int 1)) [] (by decide)

/-- C9: validate_query returns the parsed query unchanged when every column
name referenced by the filter keys and the sort field is a column of the
table; otherwise it fails with a single error naming exactly the referenced
names absent from the table - all of them, and no valid name. -/
theorem claim9_query_validation :
    ∀ (q : ParsedQuery) (table : Table),
      ((∀ c ∈ referenced_columns q, c ∈ colNames table) →
        validate_query q table = .ok q)
      ∧ ((∃ c ∈ referenced_columns q, c ∉ colNames table) →
          validate_query q table
            = .error (.jsonValidation
                (.msg (unknownColumnsMessage (not_valid_columns q table))))
          ∧ ∀ c, c ∈ not_valid_columns q table
              ↔ c ∈ referenced_columns q ∧ c ∉ colNames table) := by
  intro q table
  constructor
  · intro hall
    have hnil : not_valid_columns q table = [] := by
      rw [not_valid_columns, List.filter_eq_nil_iff]
      intro c hc
      simp only [List.mem_dedup] at hc
      simp [hall c hc]
    simp [validate_query, hnil]
  · intro hex
    obtain ⟨c, hc, hn⟩ := hex
    have hmem : c ∈ not_valid_columns q table := by
      simp [not_valid_columns, List.mem_filter, List.mem_dedup, hc, hn]
    have hne := List.ne_nil_of_mem hmem
    constructor
    · cases hnv : not_valid_columns q table with
      | nil => exact absurd hnv hne
      | cons a as => simp [validate_query, hnv]
    · intro c'
      simp [not_valid_columns, List.mem_filter, List.mem_dedup]

/-- C9 (witness): the example of the claim - sorting by the absent column
ghost while filtering on the valid column age fails naming exactly ghost. -/
theorem claim9_witness :
    validate_query ghostQuery ageTable
        = .error (.jsonValidation
            (.msg (unknownColumnsMessage (not_valid_columns ghostQuery ageTable))))
    ∧ ∀ c, c ∈ not_valid_columns ghostQuery ageTable
        ↔ c ∈ referenced_columns ghostQuery ∧ c ∉ colNames ageTable :=
  (claim9_query_validation ghostQuery ageTable).2 (by decide)

/-- C10: the omitted-field set computed by setup_resources is by
construction a subset of the fields of the model, so the all-fields check always
passes and the ValueError branch is unreachable; field names in the display
list that do not exist on the model are silently ignored - dropping them
from the display list changes nothing. -/
theorem claim10_display_error_unreachable :
    ∀ (m : ModelInfo) (display : Option (List String)),
      (∃ omitted, setup_resource_omit m display = .ok omitted ∧ ∀ f ∈ omitted, f ∈ m.fields)
      ∧ ∀ d, setup_resource_omit m (some d)
          = setup_resource_omit m (some (d.filter (fun x => decide (x ∈ m.fields)))) := by
  intro m display
  constructor
  · cases display with
    | none => exact ⟨[], rfl, by simp⟩
    | some d =>
        refine ⟨m.fields.filter (fun f => !(decide (f ∈ d))), ?_, ?_⟩
        · simp only [setup_resource_omit]
          rw [if_pos]
          rw [List.all_eq_true]
          intro f hf
          simpa using (List.mem_filter.mp hf).1
        · intro f hf
          exact (List.mem_filter.mp hf).1
  · intro d
    simp only [setup_resource_omit]
    have hfilter : m.fields.filter (fun f => !(decide (f ∈ d)))
        = m.fields.filter
            (fun f => !(decide (f ∈ d.filter (fun x => decide (x ∈ m.fields))))) := by
      apply List.filter_congr
      intro f hf
      simp [List.mem_filter, hf]
    rw [hfilter]

end AioAdmin
